import Mathlib

/-!
# Formal model of the physics core of `3d-orbit-simulation`

A shallow embedding of the `physics` and relevant controller code of
`src/index.js`.  JavaScript numbers are modelled as real numbers; the
JavaScript remainder operator `%` is modelled by `jsRem` (remainder with
truncated quotient).  Stateful code is modelled by explicit state passing:
every function that mutates the `state` object becomes a function
`State → State`.
-/

noncomputable section

namespace OrbitSim

/-- JavaScript remainder `x % y`: the remainder of division with the quotient
truncated toward zero (sign of the dividend).  In the source it is only ever
applied with `x > 2π` and `y = 2π`, where it agrees with `x - y * ⌊x / y⌋`. -/
def jsRem (x y : ℝ) : ℝ :=
  if 0 ≤ x / y then x - y * (⌊x / y⌋ : ℝ) else x - y * (⌈x / y⌉ : ℝ)

namespace constants

/-- `constants.gravitationalConstant` from `src/index.js`. -/
def gravitationalConstant : ℝ := 6.67408e-11

/-- `constants.earthSunDistanceMeters` from `src/index.js`. -/
def earthSunDistanceMeters : ℝ := 1.496e11

/-- `constants.earthAngularVelocityMetersPerSecond` from `src/index.js`. -/
def earthAngularVelocityMetersPerSecond : ℝ := 1.990986e-7

/-- `constants.massOfTheSunKg` from `src/index.js`. -/
def massOfTheSunKg : ℝ := 1.98855e30

end constants

/-- `screenUnitsInOneEarthSunDistance` from `src/index.js`. -/
def screenUnitsInOneEarthSunDistance : ℝ := 10

/-- `scaleFactor` from `src/index.js`. -/
def scaleFactor : ℝ :=
  constants.earthSunDistanceMeters / screenUnitsInOneEarthSunDistance

/-- `numberOfCalculationsPerFrame` from `src/index.js`: the number of
sub-steps performed by one call of `updatePosition`. -/
def numberOfCalculationsPerFrame : ℕ := 1000

/-- `frameRate` from `src/index.js`. -/
def frameRate : ℝ := 1 / 60

/-- `defaultSimulationSpeed` from `src/index.js`: 50 simulated days per
real second. -/
def defaultSimulationSpeed : ℝ := 50 * 24 * 60 * 60

/-- A `{value, speed}` record, as used for `distance` and `angle` in
`src/index.js`. -/
@[ext]
structure Coord where
  value : ℝ
  speed : ℝ

/-- The shape of the `initialConditions` object of `src/index.js`. -/
@[ext]
structure InitialConds where
  distance : Coord
  angle : Coord

/-- `initialConditions` from `src/index.js`. -/
def initialConditions : InitialConds :=
  { distance := { value := constants.earthSunDistanceMeters, speed := 0 }
    angle := { value := Real.pi / 6
               speed := constants.earthAngularVelocityMetersPerSecond } }

/-- The mutable `state` object of `src/index.js`. -/
@[ext]
structure State where
  distance : Coord
  angle : Coord
  massOfTheSunKg : ℝ
  paused : Bool
  simulationSpeed : ℝ

/-- The literal with which the `state` object of `src/index.js` is created
(before `simulation.start()` resets it to the initial conditions). -/
def startState : State :=
  { distance := { value := 0, speed := 0 }
    angle := { value := 0, speed := 0 }
    massOfTheSunKg := constants.massOfTheSunKg
    paused := false
    simulationSpeed := defaultSimulationSpeed }

/-- `calculateDistanceAcceleration` from `src/index.js`. -/
def calculateDistanceAcceleration (s : State) : ℝ :=
  s.distance.value * s.angle.speed ^ 2 -
    constants.gravitationalConstant * s.massOfTheSunKg / s.distance.value ^ 2

/-- `calculateAngleAcceleration` from `src/index.js`. -/
def calculateAngleAcceleration (s : State) : ℝ :=
  -2.0 * s.distance.speed * s.angle.speed / s.distance.value

/-- `newValue` from `src/index.js`: `v = u + at`. -/
def newValue (currentValue deltaT derivative : ℝ) : ℝ :=
  currentValue + deltaT * derivative

/-- `resetStateToInitialConditions` from `src/index.js`: overwrites the four
`distance`/`angle` fields; no other field is assigned. -/
def resetStateToInitialConditions (s : State) : State :=
  { s with distance := { value := initialConditions.distance.value
                         speed := initialConditions.distance.speed }
           angle := { value := initialConditions.angle.value
                      speed := initialConditions.angle.speed } }

/-- `scaledDistance` from `src/index.js`. -/
def scaledDistance (s : State) : ℝ := s.distance.value / scaleFactor

/-- The `deltaT` local of `calculateNewPosition` in `src/index.js`: the
per-sub-step time increment, recomputed in each sub-step from the current
`simulationSpeed`. -/
def deltaT (s : State) : ℝ :=
  s.simulationSpeed * frameRate / (numberOfCalculationsPerFrame : ℝ)

/-- `calculateNewPosition` from `src/index.js`: one sub-step.  Mirrors the
source's sequence of mutations: distance speed, distance value, then (reading
the already-updated distance fields) angle speed, angle value, then the
conditional normalization of the angle value. -/
def calculateNewPosition (s : State) : State :=
  let dT := deltaT s
  let distanceAcceleration := calculateDistanceAcceleration s
  let newDistanceSpeed := newValue s.distance.speed dT distanceAcceleration
  let newDistanceValue := newValue s.distance.value dT newDistanceSpeed
  let s1 : State := { s with distance := { value := newDistanceValue
                                           speed := newDistanceSpeed } }
  let angleAcceleration := calculateAngleAcceleration s1
  let newAngleSpeed := newValue s1.angle.speed dT angleAcceleration
  let newAngleValue := newValue s1.angle.value dT newAngleSpeed
  let s2 : State := { s1 with angle := { value := newAngleValue
                                         speed := newAngleSpeed } }
  if s2.angle.value > 2 * Real.pi then
    { s2 with angle := { s2.angle with value := jsRem s2.angle.value (2 * Real.pi) } }
  else
    s2

/-- `updatePosition` from `src/index.js`: the per-frame tick.  Returns
immediately when paused, otherwise performs `numberOfCalculationsPerFrame`
sub-steps. -/
def updatePosition (s : State) : State :=
  if s.paused then s else calculateNewPosition^[numberOfCalculationsPerFrame] s

/-- `updateSunMass` from `src/index.js`: sets the central mass to the
reference solar mass times the given multiplier, unconditionally. -/
def updateSunMass (sunMassMultiplier : ℝ) (s : State) : State :=
  { s with massOfTheSunKg := constants.massOfTheSunKg * sunMassMultiplier }

/-- `updateSimulationSpeed` from `src/index.js`: sets the simulation speed,
unconditionally. -/
def updateSimulationSpeed (simulationSpeed : ℝ) (s : State) : State :=
  { s with simulationSpeed := simulationSpeed }

/-- The physics-state effect of `onClickRestart` from `src/index.js`: reset
to initial conditions, set the mass multiplier back to 1 (via the GUI
controller's `onChange`, which calls `updateSunMass(1)`), then un-pause. -/
def onClickRestart (s : State) : State :=
  { updateSunMass 1 (resetStateToInitialConditions s) with paused := false }

/-- The "Calculate new distance" block of `calculateNewPosition`, as a
stand-alone state transformer: semi-implicit Euler update of the distance
fields, accelerations read from the input state. -/
def subStepDistanceUpdated (s : State) : State :=
  { s with distance :=
      { value := newValue s.distance.value (deltaT s)
                   (newValue s.distance.speed (deltaT s) (calculateDistanceAcceleration s))
        speed := newValue s.distance.speed (deltaT s) (calculateDistanceAcceleration s) } }

/-- The "Calculate new angle" block of `calculateNewPosition`, as a
stand-alone state transformer: semi-implicit Euler update of the angle
fields, with the angle acceleration read from the input state (which, in the
source, is the state already holding the updated distance fields). -/
def subStepAngleUpdated (s : State) : State :=
  { s with angle :=
      { value := newValue s.angle.value (deltaT s)
                   (newValue s.angle.speed (deltaT s) (calculateAngleAcceleration s))
        speed := newValue s.angle.speed (deltaT s) (calculateAngleAcceleration s) } }

/-- The trailing `if` of `calculateNewPosition`: conditional normalization of
the angle value, applied only when it exceeds `2π`. -/
def normalizeAngleValue (s : State) : State :=
  if s.angle.value > 2 * Real.pi then
    { s with angle := { s.angle with value := jsRem s.angle.value (2 * Real.pi) } }
  else
    s

/-- Follows the spec's words (§4.2, claim C2) rather than the source: a
sub-step in which BOTH accelerations are evaluated from the state at the
start of the sub-step, so that the angle acceleration uses the
not-yet-updated distance fields. -/
def calculateNewPositionSpecStartAccel (s : State) : State :=
  normalizeAngleValue
    { subStepDistanceUpdated s with angle :=
        { value := newValue s.angle.value (deltaT s)
                     (newValue s.angle.speed (deltaT s) (calculateAngleAcceleration s))
          speed := newValue s.angle.speed (deltaT s) (calculateAngleAcceleration s) } }

/-- Follows the spec's words (§7, claim C7) rather than the source: a
guarded tick that reports a domain error (`none`) when
`distance.value ≤ 0` instead of integrating. -/
def updatePositionGuardedSpec (s : State) : Option State :=
  if s.paused then some s
  else if s.distance.value ≤ 0 then none
  else some (updatePosition s)

/-- An input to the engine: one external frame tick or one
parameter-change/lifecycle event (claim C9). -/
inductive Input where
  | tick : Input
  | setMass : ℝ → Input
  | setSpeed : ℝ → Input
  | resetCmd : Input
  | setPaused : Bool → Input

/-- Apply one input to the state. -/
def applyInput : Input → State → State
  | Input.tick, s => updatePosition s
  | Input.setMass m, s => updateSunMass m s
  | Input.setSpeed v, s => updateSimulationSpeed v s
  | Input.resetCmd, s => resetStateToInitialConditions s
  | Input.setPaused b, s => { s with paused := b }

/-- Run a sequence of inputs from a state. -/
def run : List Input → State → State
  | [], s => s
  | i :: rest, s => run rest (applyInput i s)

/-- The state of a fresh engine instance: the `state` literal after the
`resetStateToInitialConditions()` performed by `simulation.start()`. -/
def freshState : State := resetStateToInitialConditions startState

/-- A fresh engine that has been paused (as the collision handler or an
explicit pause would do). -/
def pausedFresh : State := { freshState with paused := true }

/-- Concrete state for claim C1's counterexample: a negative angle value,
zero simulation speed (reachable through `updateSimulationSpeed`, which does
not validate), not paused. -/
def cexC1 : State :=
  { distance := { value := 1, speed := 0 }
    angle := { value := -1, speed := 0 }
    massOfTheSunKg := 0
    paused := false
    simulationSpeed := 0 }

/-- Concrete state for claim C2's counterexample: chosen so that the
per-sub-step time increment is exactly 1 and the arithmetic is simple. -/
def cexC2 : State :=
  { distance := { value := 1, speed := 0 }
    angle := { value := 0, speed := 1 }
    massOfTheSunKg := 0
    paused := false
    simulationSpeed := 60000 }

/-- Concrete state for claim C7's counterexample: the degenerate
`distance.value = 0`, with zero simulation speed so the tick's arithmetic is
inert. -/
def degenerateStart : State := { startState with simulationSpeed := 0 }

/-- Concrete state used as a witness input for claim C4. -/
def witC4 : State :=
  { distance := { value := 2, speed := 3 }
    angle := { value := 5, speed := 7 }
    massOfTheSunKg := 11
    paused := false
    simulationSpeed := 13 }

/-! ## Helper lemmas -/

theorem jsRem_nonneg_of_pos {x y : ℝ} (hy : 0 < y) (hx : 0 < x) :
    0 ≤ jsRem x y := by
  have hq : 0 ≤ x / y := le_of_lt (div_pos hx hy)
  unfold jsRem
  rw [if_pos hq]
  have h1 : (⌊x / y⌋ : ℝ) ≤ x / y := Int.floor_le _
  have h2 : y * (⌊x / y⌋ : ℝ) ≤ y * (x / y) :=
    mul_le_mul_of_nonneg_left h1 (le_of_lt hy)
  have h3 : y * (x / y) = x := mul_div_cancel₀ x (ne_of_gt hy)
  linarith

theorem jsRem_lt_of_pos {x y : ℝ} (hy : 0 < y) (hx : 0 < x) :
    jsRem x y < y := by
  have hq : 0 ≤ x / y := le_of_lt (div_pos hx hy)
  unfold jsRem
  rw [if_pos hq]
  have h1 : x / y - 1 < (⌊x / y⌋ : ℝ) := Int.sub_one_lt_floor _
  have h2 : y * (x / y - 1) < y * (⌊x / y⌋ : ℝ) := by
    exact mul_lt_mul_of_pos_left h1 hy
  have h3 : y * (x / y) = x := mul_div_cancel₀ x (ne_of_gt hy)
  nlinarith

theorem calculateNewPosition_eq (s : State) :
    calculateNewPosition s =
      normalizeAngleValue (subStepAngleUpdated (subStepDistanceUpdated s)) := rfl

theorem normalizeAngleValue_distance (s : State) :
    (normalizeAngleValue s).distance = s.distance := by
  unfold normalizeAngleValue
  split <;> rfl

theorem subStepAngleUpdated_distance (s : State) :
    (subStepAngleUpdated s).distance = s.distance := rfl

theorem normalizeAngleValue_angle_speed (s : State) :
    (normalizeAngleValue s).angle.speed = s.angle.speed := by
  unfold normalizeAngleValue
  split <;> rfl

theorem normalizeAngleValue_paused (s : State) :
    (normalizeAngleValue s).paused = s.paused := by
  unfold normalizeAngleValue
  split <;> rfl

theorem normalizeAngleValue_angle_value_le (s : State) :
    (normalizeAngleValue s).angle.value ≤ 2 * Real.pi := by
  unfold normalizeAngleValue
  split
  · rename_i h
    have h2pi : (0 : ℝ) < 2 * Real.pi := by positivity
    exact le_of_lt (jsRem_lt_of_pos h2pi (lt_trans h2pi h))
  · rename_i h
    exact le_of_not_lt h

theorem calculateNewPosition_angle_value_le (s : State) :
    (calculateNewPosition s).angle.value ≤ 2 * Real.pi := by
  rw [calculateNewPosition_eq]
  exact normalizeAngleValue_angle_value_le _

theorem calculateNewPosition_paused (s : State) :
    (calculateNewPosition s).paused = s.paused := by
  rw [calculateNewPosition_eq, normalizeAngleValue_paused]
  rfl

theorem iterate_calculateNewPosition_paused (n : ℕ) (s : State) :
    (calculateNewPosition^[n] s).paused = s.paused := by
  induction n generalizing s with
  | zero => rfl
  | succ n ih =>
    rw [Function.iterate_succ_apply]
    rw [ih, calculateNewPosition_paused]

theorem updatePosition_paused (s : State) :
    (updatePosition s).paused = s.paused := by
  unfold updatePosition
  split
  · rfl
  · exact iterate_calculateNewPosition_paused _ s

theorem updatePosition_of_paused {s : State} (h : s.paused = true) :
    updatePosition s = s := by
  unfold updatePosition
  rw [if_pos h]

/-- A state with `simulationSpeed = 0` whose angle value does not exceed `2π`
is a fixed point of one sub-step: the time increment is zero, so every
semi-implicit Euler update is the identity and the normalization branch is
not taken. -/
theorem calculateNewPosition_fixed_of_speed_zero {s : State}
    (h : s.simulationSpeed = 0) (h2 : ¬ s.angle.value > 2 * Real.pi) :
    calculateNewPosition s = s := by
  have hdt : deltaT s = 0 := by
    unfold deltaT
    rw [h]
    ring
  rw [calculateNewPosition_eq]
  have hd : subStepDistanceUpdated s = s := by
    unfold subStepDistanceUpdated newValue
    rw [hdt]
    simp
  rw [hd]
  have ha : subStepAngleUpdated s = s := by
    unfold subStepAngleUpdated newValue
    rw [hdt]
    simp
  rw [ha]
  unfold normalizeAngleValue
  rw [if_neg h2]

theorem updatePosition_fixed_of_speed_zero {s : State}
    (h : s.simulationSpeed = 0) (h2 : ¬ s.angle.value > 2 * Real.pi)
    (hp : s.paused = false) :
    updatePosition s = s := by
  unfold updatePosition
  rw [hp]
  simp only [Bool.false_eq_true, if_false]
  exact Function.iterate_fixed (calculateNewPosition_fixed_of_speed_zero h h2) _

/-- The angle speed of the sub-step written to the spec's words at the C2
counterexample state: the angle acceleration read from the step-start state
is `-2 * 0 * 1 / 1 = 0`, so the speed stays `1`. -/
theorem cexC2_spec_angle_speed :
    (calculateNewPositionSpecStartAccel cexC2).angle.speed = 1 := by
  unfold calculateNewPositionSpecStartAccel
  rw [normalizeAngleValue_angle_speed]
  show newValue cexC2.angle.speed (deltaT cexC2) (calculateAngleAcceleration cexC2) = 1
  norm_num [newValue, deltaT, calculateAngleAcceleration, cexC2, frameRate,
    numberOfCalculationsPerFrame]

/-- The angle speed of the source's sub-step at the C2 counterexample state:
the angle acceleration is read from the state holding the already-updated
distance fields (`speed = 1`, `value = 2`), giving `-2 * 1 * 1 / 2 = -1`, so
the speed drops to `0`. -/
theorem cexC2_code_angle_speed :
    (calculateNewPosition cexC2).angle.speed = 0 := by
  rw [calculateNewPosition_eq, normalizeAngleValue_angle_speed]
  show newValue (subStepDistanceUpdated cexC2).angle.speed
    (deltaT (subStepDistanceUpdated cexC2))
    (calculateAngleAcceleration (subStepDistanceUpdated cexC2)) = 0
  norm_num [newValue, deltaT, calculateAngleAcceleration, calculateDistanceAcceleration,
    subStepDistanceUpdated, frameRate, numberOfCalculationsPerFrame, cexC2,
    constants.gravitationalConstant]

/-! ## Claim theorems -/

/-- Claim C1 (corrected).  After every unpaused `tick()` the angle value is
at most `2π` (the conditional modulo runs at the end of every sub-step, so in
particular after the last one); the same bound already holds after every
single sub-step, showing the normalization is per-sub-step rather than
applied once after all sub-steps. -/
theorem C1_angle_normalization (s t : State) (h : s.paused = false) :
    (updatePosition s).angle.value ≤ 2 * Real.pi ∧
    (calculateNewPosition t).angle.value ≤ 2 * Real.pi := by
  constructor
  · unfold updatePosition
    rw [h]
    simp only [Bool.false_eq_true, if_false]
    have hn : numberOfCalculationsPerFrame = 999 + 1 := rfl
    rw [hn, Function.iterate_succ_apply']
    exact calculateNewPosition_angle_value_le _
  · exact calculateNewPosition_angle_value_le t

/-- Claim C1, witness for the amended theorem at the fresh start state. -/
theorem C1_witness :
    startState.paused = false ∧
    ((updatePosition startState).angle.value ≤ 2 * Real.pi ∧
     (calculateNewPosition startState).angle.value ≤ 2 * Real.pi) :=
  ⟨rfl, C1_angle_normalization startState startState rfl⟩

/-- Claim C1, counterexample.  A state with a negative angle value and zero
simulation speed (the setter accepts zero) is a fixed point of `tick()`:
after the tick the angle value is still `-1`, so `0 ≤ angle.value < 2π`
fails — negative angle values are never normalized, because the source's
modulo branch only fires when the value exceeds `2π`. -/
theorem C1_counterexample :
    ¬ (0 ≤ (updatePosition cexC1).angle.value ∧
       (updatePosition cexC1).angle.value < 2 * Real.pi) := by
  have hpi := Real.pi_pos
  have h2 : ¬ cexC1.angle.value > 2 * Real.pi := by
    show ¬ (-1 : ℝ) > 2 * Real.pi
    push_neg
    nlinarith
  have hfix : updatePosition cexC1 = cexC1 :=
    updatePosition_fixed_of_speed_zero rfl h2 rfl
  rw [hfix]
  intro hc
  have h0 : (0 : ℝ) ≤ -1 := hc.1
  norm_num at h0

/-- Claim C2 (corrected, amended part).  The source's sub-step is the
composition: distance update (acceleration from the step-start state), then
angle update whose acceleration is evaluated on the state that already holds
the updated distance fields, then conditional normalization.  In particular
the angle speed update reads `calculateAngleAcceleration` of the
distance-updated state, while the distance speed update reads
`calculateDistanceAcceleration` of the step-start state. -/
theorem C2_evaluation_order (s : State) :
    calculateNewPosition s =
      normalizeAngleValue (subStepAngleUpdated (subStepDistanceUpdated s)) ∧
    (subStepAngleUpdated (subStepDistanceUpdated s)).angle.speed =
      newValue s.angle.speed (deltaT s)
        (calculateAngleAcceleration (subStepDistanceUpdated s)) ∧
    (calculateNewPosition s).distance.speed =
      newValue s.distance.speed (deltaT s) (calculateDistanceAcceleration s) := by
  refine ⟨calculateNewPosition_eq s, rfl, ?_⟩
  have hd : (calculateNewPosition s).distance = (subStepDistanceUpdated s).distance := by
    rw [calculateNewPosition_eq, normalizeAngleValue_distance, subStepAngleUpdated_distance]
  rw [hd]
  rfl

/-- Claim C2, counterexample.  At `cexC2` the source's sub-step and the
spec-described sub-step (both accelerations from the step start) disagree:
the angle speed comes out `0` in the source and `1` under the spec's words,
because the source evaluates the angle acceleration after the distance
fields were updated. -/
theorem C2_counterexample :
    calculateNewPosition cexC2 ≠ calculateNewPositionSpecStartAccel cexC2 := by
  intro h
  have hs : (calculateNewPosition cexC2).angle.speed =
      (calculateNewPositionSpecStartAccel cexC2).angle.speed := by rw [h]
  rw [cexC2_code_angle_speed, cexC2_spec_angle_speed] at hs
  norm_num at hs

/-- Claim C3 (confirmed).  While paused, any number of ticks leaves the
state — every field of it — exactly unchanged. -/
theorem C3_pause_idempotence (s : State) (n : ℕ) (h : s.paused = true) :
    updatePosition^[n] s = s :=
  Function.iterate_fixed (updatePosition_of_paused h) n

/-- Claim C3, witness: three ticks on a paused fresh engine change nothing. -/
theorem C3_witness :
    pausedFresh.paused = true ∧ updatePosition^[3] pausedFresh = pausedFresh :=
  ⟨rfl, C3_pause_idempotence pausedFresh 3 rfl⟩

/-- Claim C4 (confirmed).  For states with positive distance the force model
computes exactly the spec's two formulas, as pure functions of the state. -/
theorem C4_force_model (s : State) (_h : 0 < s.distance.value) :
    calculateDistanceAcceleration s =
      s.distance.value * s.angle.speed ^ 2 -
        constants.gravitationalConstant * s.massOfTheSunKg / s.distance.value ^ 2 ∧
    calculateAngleAcceleration s =
      -(2 * s.distance.speed * s.angle.speed) / s.distance.value := by
  constructor
  · rfl
  · unfold calculateAngleAcceleration
    ring

/-- Claim C4, witness at a concrete state with positive distance. -/
theorem C4_witness :
    0 < witC4.distance.value ∧
    (calculateDistanceAcceleration witC4 =
      witC4.distance.value * witC4.angle.speed ^ 2 -
        constants.gravitationalConstant * witC4.massOfTheSunKg / witC4.distance.value ^ 2 ∧
     calculateAngleAcceleration witC4 =
      -(2 * witC4.distance.speed * witC4.angle.speed) / witC4.distance.value) :=
  ⟨by norm_num [witC4], C4_force_model witC4 (by norm_num [witC4])⟩

/-- Claim C5 (confirmed).  An unpaused tick is exactly
`numberOfCalculationsPerFrame = 1000` sequential sub-steps; each sub-step
uses the increment `deltaT = simulationSpeed * (1/60) / 1000`, which at the
default speed of 50 days/second equals `(50·86400/60)/1000 = 72` seconds;
and the sub-step is semi-implicit: the new distance value is the old one
plus `deltaT` times the already-updated distance speed. -/
theorem C5_substeps (s : State) (h : s.paused = false) :
    updatePosition s = calculateNewPosition^[numberOfCalculationsPerFrame] s ∧
    numberOfCalculationsPerFrame = 1000 ∧
    deltaT s = s.simulationSpeed * (1 / 60) / 1000 ∧
    (s.simulationSpeed = defaultSimulationSpeed →
      deltaT s = 50 * 86400 / 60 / 1000) ∧
    (calculateNewPosition s).distance.value =
      s.distance.value + deltaT s * (calculateNewPosition s).distance.speed := by
  refine ⟨?_, rfl, ?_, ?_, ?_⟩
  · unfold updatePosition
    rw [h]
    simp
  · unfold deltaT frameRate numberOfCalculationsPerFrame
    norm_num
  · intro hv
    unfold deltaT frameRate numberOfCalculationsPerFrame
    rw [hv]
    unfold defaultSimulationSpeed
    norm_num
  · have hd : (calculateNewPosition s).distance = (subStepDistanceUpdated s).distance := by
      rw [calculateNewPosition_eq, normalizeAngleValue_distance, subStepAngleUpdated_distance]
    rw [hd]
    rfl

/-- Claim C5, witness at the fresh start state. -/
theorem C5_witness :
    startState.paused = false ∧
    (updatePosition startState =
        calculateNewPosition^[numberOfCalculationsPerFrame] startState ∧
     numberOfCalculationsPerFrame = 1000 ∧
     deltaT startState = startState.simulationSpeed * (1 / 60) / 1000 ∧
     (startState.simulationSpeed = defaultSimulationSpeed →
       deltaT startState = 50 * 86400 / 60 / 1000) ∧
     (calculateNewPosition startState).distance.value =
       startState.distance.value +
         deltaT startState * (calculateNewPosition startState).distance.speed) :=
  ⟨rfl, C5_substeps startState rfl⟩

/-- Claim C6 (corrected, amended part).  The two setters validate nothing
and clamp nothing: for every multiplier (negative included) `updateSunMass`
overwrites the central mass with the reference mass times the multiplier and
touches no other field, and for every value (non-positive included)
`updateSimulationSpeed` overwrites the simulation speed and touches no other
field; neither signals any error. -/
theorem C6_setters_unvalidated (m v : ℝ) (s : State) :
    (updateSunMass m s).massOfTheSunKg = constants.massOfTheSunKg * m ∧
    (updateSunMass m s).distance = s.distance ∧
    (updateSunMass m s).angle = s.angle ∧
    (updateSunMass m s).paused = s.paused ∧
    (updateSunMass m s).simulationSpeed = s.simulationSpeed ∧
    (updateSimulationSpeed v s).simulationSpeed = v ∧
    (updateSimulationSpeed v s).massOfTheSunKg = s.massOfTheSunKg ∧
    (updateSimulationSpeed v s).distance = s.distance ∧
    (updateSimulationSpeed v s).angle = s.angle ∧
    (updateSimulationSpeed v s).paused = s.paused :=
  ⟨rfl, rfl, rfl, rfl, rfl, rfl, rfl, rfl, rfl, rfl⟩

/-- Claim C6, counterexample.  A negative mass multiplier and a zero
simulation speed are accepted and do mutate the state, contradicting
"the setter fails with a validation error and leaves the state unmutated". -/
theorem C6_counterexample :
    (updateSunMass (-1) freshState).massOfTheSunKg ≠ freshState.massOfTheSunKg ∧
    (updateSimulationSpeed 0 freshState).simulationSpeed ≠
      freshState.simulationSpeed := by
  constructor
  · show constants.massOfTheSunKg * (-1) ≠ constants.massOfTheSunKg
    unfold constants.massOfTheSunKg
    norm_num
  · show (0 : ℝ) ≠ defaultSimulationSpeed
    unfold defaultSimulationSpeed
    norm_num

/-- Claim C7 (corrected, amended part).  The engine has no guard on the
distance: on an unpaused state with `distance.value ≤ 0` the tick still runs
the full 1000 sub-steps and returns a state (the spec's guarded variant
would report a domain error there), while for positive distance the code's
tick and the spec's guarded tick agree. -/
theorem C7_no_guard (s : State) (hp : s.paused = false) :
    (s.distance.value ≤ 0 →
      updatePosition s = calculateNewPosition^[numberOfCalculationsPerFrame] s ∧
      updatePositionGuardedSpec s = none) ∧
    (0 < s.distance.value →
      updatePositionGuardedSpec s = some (updatePosition s)) := by
  constructor
  · intro hd
    constructor
    · unfold updatePosition
      rw [hp]
      simp
    · unfold updatePositionGuardedSpec
      rw [hp]
      simp [hd]
  · intro hd
    unfold updatePositionGuardedSpec
    rw [hp]
    simp [not_le.mpr hd]

/-- Claim C7, witness for the amended theorem at the degenerate state. -/
theorem C7_witness :
    degenerateStart.paused = false ∧
    ((degenerateStart.distance.value ≤ 0 →
      updatePosition degenerateStart =
        calculateNewPosition^[numberOfCalculationsPerFrame] degenerateStart ∧
      updatePositionGuardedSpec degenerateStart = none) ∧
     (0 < degenerateStart.distance.value →
      updatePositionGuardedSpec degenerateStart = some (updatePosition degenerateStart))) :=
  ⟨rfl, C7_no_guard degenerateStart rfl⟩

/-- Claim C7, counterexample.  At `distance.value = 0` the tick does not
report any error: it returns a state as usual (here the state itself, the
arithmetic being inert at zero simulation speed), whereas the spec-described
guarded tick reports the domain error. -/
theorem C7_counterexample :
    degenerateStart.distance.value ≤ 0 ∧
    updatePosition degenerateStart = degenerateStart ∧
    updatePositionGuardedSpec degenerateStart = none := by
  have hd : degenerateStart.distance.value ≤ 0 := le_refl 0
  refine ⟨hd, ?_, ?_⟩
  · apply updatePosition_fixed_of_speed_zero rfl ?_ rfl
    show ¬ (0 : ℝ) > 2 * Real.pi
    push_neg
    positivity
  · have hp : degenerateStart.paused = false := rfl
    unfold updatePositionGuardedSpec
    rw [hp]
    simp [hd]

/-- Claim C8 (confirmed).  `reset()` restores the distance and angle records
(values and speeds) to the initial conditions and leaves the central mass
and the simulation speed untouched. -/
theorem C8_reset_frame (s : State) :
    (resetStateToInitialConditions s).distance = initialConditions.distance ∧
    (resetStateToInitialConditions s).angle = initialConditions.angle ∧
    (resetStateToInitialConditions s).massOfTheSunKg = s.massOfTheSunKg ∧
    (resetStateToInitialConditions s).simulationSpeed = s.simulationSpeed :=
  ⟨rfl, rfl, rfl, rfl⟩

/-- Claim C9 (corrected, amended part).  Running any input sequence is a
deterministic function of the start state; and `reset()` followed by any
input sequence reproduces the fresh-instance run provided the pre-reset
state still has the default central mass, the default simulation speed, and
is unpaused — the fields `reset()` does not restore. -/
theorem C9_determinism :
    (∀ (inputs : List Input) (s t : State), s = t → run inputs s = run inputs t) ∧
    (∀ s : State, s.massOfTheSunKg = constants.massOfTheSunKg →
      s.simulationSpeed = defaultSimulationSpeed → s.paused = false →
      ∀ inputs : List Input,
        run inputs (resetStateToInitialConditions s) = run inputs freshState) := by
  constructor
  · intro inputs s t h
    rw [h]
  · intro s h1 h2 h3 inputs
    have hr : resetStateToInitialConditions s = freshState := by
      unfold freshState resetStateToInitialConditions startState
      ext
      · rfl
      · rfl
      · rfl
      · rfl
      · exact h1
      · exact h3
      · exact h2
    rw [hr]

/-- Claim C9, witness for the amended theorem. -/
theorem C9_witness :
    run [Input.tick] startState = run [Input.tick] startState ∧
    run [Input.tick] (resetStateToInitialConditions freshState) =
      run [Input.tick] freshState :=
  ⟨C9_determinism.1 [Input.tick] startState startState rfl,
   C9_determinism.2 freshState rfl rfl rfl [Input.tick]⟩

/-- Claim C9, counterexample.  A fresh engine that was paused (as the
collision handler does) and then reset stays paused, so reset + one tick and
a fresh instance + one tick give different trajectories: the paused flag —
an exposed observable — differs after the same tick sequence (and the paused
run's coordinates stay frozen while the fresh run integrates). -/
theorem C9_counterexample :
    (run [Input.tick] (resetStateToInitialConditions pausedFresh)).paused = true ∧
    (run [Input.tick] freshState).paused = false := by
  constructor
  · show (updatePosition (resetStateToInitialConditions pausedFresh)).paused = true
    rw [updatePosition_paused]
    rfl
  · show (updatePosition freshState).paused = false
    rw [updatePosition_paused]
    rfl

/-- Claim C10 (confirmed).  `resetStateToInitialConditions` leaves the
paused flag unchanged; the un-pause on a full restart comes from the
separate controller action `onClickRestart`, which does force
`paused = false`. -/
theorem C10_reset_preserves_paused (s : State) :
    (resetStateToInitialConditions s).paused = s.paused ∧
    (onClickRestart s).paused = false :=
  ⟨rfl, rfl⟩

end OrbitSim
